import Mathlib

/-!
Verification of the docktopus container-lifecycle library.

The development shallowly embeds the two source files of the repository:

* `src/config/requirements.rs` — resource-limit string parsing
  (`parse_memory_string`), modelled at the byte level because the Rust code
  splits the input at a byte index (`str::split_at`), which can panic.
* `src/container.rs` — the `Container` lifecycle controller: status parsing
  (`ContainerStatus`), configuration composition (`Config` / `HostConfig`
  merge inside `Container::create`), and the lifecycle operations
  (`create` / `start` / `stop` / `remove` / `wait` / `status`), with the
  remote Docker engine modelled as an explicit collaborator value and the
  calls issued to it recorded as a trace.

Rust `u64` arithmetic is modelled as `Nat` with explicit reduction modulo
`2 ^ 64` at each multiplication (release-profile wrapping semantics).
Operations that can panic in Rust (out-of-bounds indexing, integer
underflow, `Option::unwrap`) return a distinguished `panic` outcome.
-/

namespace Docktopus

/-- Outcome of running a Rust function that returns `Result<α, ε>` but can
also panic: `ok`, `err`, or `panic`. -/
inductive Outcome (ε : Type) (α : Type) where
  | ok (a : α)
  | err (e : ε)
  | panic
  deriving DecidableEq, Repr

/-! ## `src/config/requirements.rs` -/

/-- The error type used by `parse_memory_string`
(`crate::error::DockerError`); only the variant constructed there is
modelled, carrying its formatted message. -/
inductive DockerError where
  | invalidResourceLimit (msg : String)
  | validationError (msg : String)
  deriving DecidableEq, Repr

/-- Decode an ASCII byte list back to a `String` (used to model Rust's
`format!` interpolation of the offending input into the error message; all
theorems about `parse_memory_string` are scoped to ASCII inputs). -/
def asciiDecode (bs : List Nat) : String :=
  String.mk (bs.map Char.ofNat)

/-- Encode an ASCII string literal as the byte list of its UTF-8
representation (used to state concrete test inputs). -/
def asc (s : String) : List Nat :=
  s.toList.map Char.toNat

/-- Rust `str::is_char_boundary` on a UTF-8 byte list: index `0` is always a
boundary, an in-range index is a boundary iff the byte there is not a UTF-8
continuation byte, and index `len` is a boundary. -/
def is_char_boundary (bs : List Nat) (i : Nat) : Bool :=
  if i = 0 then true
  else
    match bs.get? i with
    | some b => decide (b < 0x80 ∨ 0xC0 ≤ b)
    | none => decide (i = bs.length)

/-- Rust `<u64 as FromStr>::from_str` on the bytes of a string: an optional
leading `+`, then one or more ASCII digits, value below `2 ^ 64`; anything
else fails. -/
def parse_u64 (bs : List Nat) : Option Nat :=
  let digits :=
    match bs with
    | b :: rest => if b = 0x2B then rest else bs
    | [] => bs
  if digits = [] then none
  else if digits.all (fun b => 0x30 ≤ b && b ≤ 0x39) then
    let v := digits.foldl (fun acc b => acc * 10 + (b - 0x30)) 0
    if v < 2 ^ 64 then some v else none
  else none

/-- Rust `str::to_uppercase` restricted to single-byte (ASCII) characters:
maps `a`–`z` to `A`–`Z`, leaves every other byte unchanged. -/
def to_uppercase (bs : List Nat) : List Nat :=
  bs.map (fun b => if 0x61 ≤ b && b ≤ 0x7A then b - 0x20 else b)

/-- `parse_memory_string` from `src/config/requirements.rs`, on the UTF-8
bytes of the input string.  The source computes `memory.split_at(len - 1)`:
on the empty string `len - 1` underflows `usize` and the call panics; the
call also panics when byte index `len - 1` is not a character boundary.
Multiplication by the binary unit multipliers is `u64` arithmetic, reduced
modulo `2 ^ 64`. -/
def parse_memory_string (memory : List Nat) : Outcome DockerError Nat :=
  if memory.length = 0 then Outcome.panic
  else if ¬ is_char_boundary memory (memory.length - 1) then Outcome.panic
  else
    match parse_u64 (memory.take (memory.length - 1)) with
    | none =>
        Outcome.err (DockerError.invalidResourceLimit
          ("Invalid memory value: " ++ asciiDecode memory))
    | some base =>
        if to_uppercase (memory.drop (memory.length - 1)) = [0x4B] then
          Outcome.ok (base * 1024 % 2 ^ 64)
        else if to_uppercase (memory.drop (memory.length - 1)) = [0x4D] then
          Outcome.ok (base * 1024 % 2 ^ 64 * 1024 % 2 ^ 64)
        else if to_uppercase (memory.drop (memory.length - 1)) = [0x47] then
          Outcome.ok (base * 1024 % 2 ^ 64 * 1024 % 2 ^ 64 * 1024 % 2 ^ 64)
        else
          Outcome.err (DockerError.invalidResourceLimit
            ("Invalid memory unit: " ++ asciiDecode (memory.drop (memory.length - 1))))

/-- The recognized single-letter unit suffixes (byte values), case
insensitive, with their binary multipliers: `K`/`k`, `M`/`m`, `G`/`g`. -/
def unitMult (b : Nat) : Option Nat :=
  if b = 0x4B ∨ b = 0x6B then some 1024
  else if b = 0x4D ∨ b = 0x6D then some (1024 * 1024)
  else if b = 0x47 ∨ b = 0x67 then some (1024 * 1024 * 1024)
  else none

lemma get?_append_singleton (bs : List Nat) (u : Nat) :
    (bs ++ [u]).get? bs.length = some u := by
  induction bs with
  | nil => rfl
  | cons b t ih => simp [ih]

lemma is_char_boundary_append (bs : List Nat) (u : Nat) (hu : u < 0x80) :
    is_char_boundary (bs ++ [u]) bs.length = true := by
  unfold is_char_boundary
  rcases eq_or_ne bs.length 0 with h0 | hpos
  · rw [if_pos h0]
  · rw [if_neg hpos, get?_append_singleton]
    simp only [decide_eq_true_eq]
    exact Or.inl hu

/-- Reduction of `parse_memory_string` on an input ending in a single ASCII
byte `u`: the split always succeeds and separates the input into the
numeric part `bs` and the unit `[u]`. -/
lemma parse_memory_string_append (bs : List Nat) (u : Nat) (hu : u < 0x80) :
    parse_memory_string (bs ++ [u]) =
      match parse_u64 bs with
      | none =>
          Outcome.err (DockerError.invalidResourceLimit
            ("Invalid memory value: " ++ asciiDecode (bs ++ [u])))
      | some base =>
          if to_uppercase [u] = [0x4B] then
            Outcome.ok (base * 1024 % 2 ^ 64)
          else if to_uppercase [u] = [0x4D] then
            Outcome.ok (base * 1024 % 2 ^ 64 * 1024 % 2 ^ 64)
          else if to_uppercase [u] = [0x47] then
            Outcome.ok (base * 1024 % 2 ^ 64 * 1024 % 2 ^ 64 * 1024 % 2 ^ 64)
          else
            Outcome.err (DockerError.invalidResourceLimit
              ("Invalid memory unit: " ++ asciiDecode [u])) := by
  have hlen : (bs ++ [u]).length = bs.length + 1 := by simp
  unfold parse_memory_string
  rw [hlen]
  simp only [Nat.add_sub_cancel]
  rw [if_neg (Nat.succ_ne_zero bs.length),
    if_neg (by simp [is_char_boundary_append bs u hu]),
    List.take_left, List.drop_left]

lemma unitMult_lt (u m : Nat) (h : unitMult u = some m) : u < 0x80 := by
  unfold unitMult at h
  split_ifs at h with h1 h2 h3
  · rcases h1 with rfl | rfl <;> norm_num
  · rcases h2 with rfl | rfl <;> norm_num
  · rcases h3 with rfl | rfl <;> norm_num

lemma to_uppercase_not_unit :
    ∀ u : Nat, u < 0x80 → unitMult u = none →
      to_uppercase [u] ≠ [0x4B] ∧ to_uppercase [u] ≠ [0x4D] ∧
        to_uppercase [u] ≠ [0x47] := by decide

/-- Claim C4 (amended): `parse_memory_string` maps an integer magnitude
followed by a unit suffix `K`/`M`/`G` (case-insensitive) to
magnitude × 1024 / 1024² / 1024³ bytes **provided the product fits in
`u64`** (otherwise the `u64` multiplications wrap modulo `2 ^ 64`), so
`"512M"` yields `536870912` and `"1G"` yields `1073741824`; every ASCII
input whose numeric part does not parse as a `u64` integer yields an
`InvalidResourceLimit` error naming the whole input, and every ASCII input
whose numeric part parses but whose unit suffix is unrecognized yields an
`InvalidResourceLimit` error naming the offending unit. -/
theorem parse_memory_string_spec :
    (∀ ds u m v : _, parse_u64 ds = some v → unitMult u = some m →
        v * m < 2 ^ 64 → parse_memory_string (ds ++ [u]) = Outcome.ok (v * m)) ∧
    (∀ bs u : _, u < 0x80 → parse_u64 bs = none →
        parse_memory_string (bs ++ [u]) =
          Outcome.err (DockerError.invalidResourceLimit
            ("Invalid memory value: " ++ asciiDecode (bs ++ [u])))) ∧
    (∀ bs u v : _, u < 0x80 → parse_u64 bs = some v → unitMult u = none →
        parse_memory_string (bs ++ [u]) =
          Outcome.err (DockerError.invalidResourceLimit
            ("Invalid memory unit: " ++ asciiDecode [u]))) ∧
    parse_memory_string (asc "512M") = Outcome.ok 536870912 ∧
    parse_memory_string (asc "1G") = Outcome.ok 1073741824 := by
  refine ⟨?_, ?_, ?_, by decide, by decide⟩
  · intro ds u m v hv hm hfit
    simp only [parse_memory_string_append ds u (unitMult_lt u m hm), hv]
    unfold unitMult at hm
    split_ifs at hm with h1 h2 h3
    · obtain rfl : m = 1024 := by injection hm with h; omega
      have hK : to_uppercase [u] = [0x4B] := by
        rcases h1 with rfl | rfl <;> decide
      rw [if_pos hK, Nat.mod_eq_of_lt hfit]
    · obtain rfl : m = 1024 * 1024 := by injection hm with h; omega
      have hM : to_uppercase [u] = [0x4D] := by
        rcases h2 with rfl | rfl <;> decide
      have hne : to_uppercase [u] ≠ [0x4B] := by rw [hM]; decide
      have h1lt : v * 1024 < 2 ^ 64 :=
        lt_of_le_of_lt (Nat.mul_le_mul_left v (by norm_num)) hfit
      have h2lt : v * 1024 * 1024 < 2 ^ 64 := by
        calc v * 1024 * 1024 = v * (1024 * 1024) := by ring
          _ < 2 ^ 64 := hfit
      rw [if_neg hne, if_pos hM, Nat.mod_eq_of_lt h1lt, Nat.mod_eq_of_lt h2lt,
        Nat.mul_assoc]
    · obtain rfl : m = 1024 * 1024 * 1024 := by injection hm with h; omega
      have hG : to_uppercase [u] = [0x47] := by
        rcases h3 with rfl | rfl <;> decide
      have hne1 : to_uppercase [u] ≠ [0x4B] := by rw [hG]; decide
      have hne2 : to_uppercase [u] ≠ [0x4D] := by rw [hG]; decide
      have h1lt : v * 1024 < 2 ^ 64 :=
        lt_of_le_of_lt (Nat.mul_le_mul_left v (by norm_num)) hfit
      have h2lt : v * 1024 * 1024 < 2 ^ 64 := by
        calc v * 1024 * 1024 = v * (1024 * 1024) := by ring
          _ ≤ v * (1024 * 1024 * 1024) := Nat.mul_le_mul_left v (by norm_num)
          _ < 2 ^ 64 := hfit
      have h3lt : v * 1024 * 1024 * 1024 < 2 ^ 64 := by
        calc v * 1024 * 1024 * 1024 = v * (1024 * 1024 * 1024) := by ring
          _ < 2 ^ 64 := hfit
      rw [if_neg hne1, if_neg hne2, if_pos hG, Nat.mod_eq_of_lt h1lt,
        Nat.mod_eq_of_lt h2lt, Nat.mod_eq_of_lt h3lt,
        show v * 1024 * 1024 * 1024 = v * (1024 * 1024 * 1024) from by ring]
  · intro bs u hu hnone
    simp only [parse_memory_string_append bs u hu, hnone]
  · intro bs u v hu hv hnone
    obtain ⟨hK, hM, hG⟩ := to_uppercase_not_unit u hu hnone
    simp only [parse_memory_string_append bs u hu, hv]
    rw [if_neg hK, if_neg hM, if_neg hG]

/-- Witness for C4: the amended theorem evaluated at the spec's concrete
examples `"2K"`, `"1X"`, `"abc"`, `"12.5G"`. -/
theorem parse_memory_string_spec_witness :
    parse_memory_string (asc "2K") = Outcome.ok 2048 ∧
    parse_memory_string (asc "1X") =
      Outcome.err (DockerError.invalidResourceLimit "Invalid memory unit: X") ∧
    parse_memory_string (asc "abc") =
      Outcome.err (DockerError.invalidResourceLimit "Invalid memory value: abc") ∧
    parse_memory_string (asc "12.5G") =
      Outcome.err (DockerError.invalidResourceLimit "Invalid memory value: 12.5G") := by
  have h := parse_memory_string_spec
  refine ⟨?_, ?_, ?_, ?_⟩
  · have h2k := h.1 [0x32] 0x4B 1024 2 (by decide) (by decide) (by decide)
    rw [show asc "2K" = [0x32] ++ [0x4B] by decide, h2k]
  · have h1x := h.2.2.1 [0x31] 0x58 1 (by decide) (by decide) (by decide)
    rw [show asc "1X" = [0x31] ++ [0x58] by decide, h1x]
    decide
  · have habc := h.2.1 [0x61, 0x62] 0x63 (by decide) (by decide)
    rw [show asc "abc" = [0x61, 0x62] ++ [0x63] by decide, habc]
    decide
  · have h125 := h.2.1 [0x31, 0x32, 0x2E, 0x35] 0x47 (by decide) (by decide)
    rw [show asc "12.5G" = [0x31, 0x32, 0x2E, 0x35] ++ [0x47] by decide, h125]
    decide

/-- Counterexample to C4 as stated: the magnitude `18446744073709551615`
(`u64::MAX`) parses, the unit `K` is recognized, but the `u64`
multiplication wraps modulo `2 ^ 64`, so the result is not
magnitude × 1024. -/
theorem parse_memory_string_overflow_counterexample :
    parse_u64 (asc "18446744073709551615") = some 18446744073709551615 ∧
    parse_memory_string (asc "18446744073709551615K") =
      Outcome.ok 18446744073709550592 ∧
    (18446744073709550592 : Nat) ≠ 18446744073709551615 * 1024 := by
  refine ⟨by decide, by decide, by decide⟩

/-- Claim C10: `parse_memory_string` panics on the empty string (the
`usize` subtraction `len - 1` underflows and the byte split panics), so an
embedding returning `Except` needs the precondition that the input is
non-empty; on every non-empty ASCII input it returns `ok` or `err`, never
panicking. -/
theorem parse_memory_string_empty_panics :
    parse_memory_string [] = Outcome.panic ∧
    ∀ bs : List Nat, bs ≠ [] → (∀ b ∈ bs, b < 0x80) →
      parse_memory_string bs ≠ Outcome.panic := by
  refine ⟨by decide, ?_⟩
  intro bs hne hascii
  rcases (List.eq_nil_or_concat bs) with rfl | ⟨l, a, rfl⟩
  · exact absurd rfl hne
  · rw [List.concat_eq_append] at hascii ⊢
    have ha : a < 0x80 := hascii a (by simp)
    rw [parse_memory_string_append l a ha]
    rcases parse_u64 l with _ | b
    · simp
    · simp only []
      split_ifs <;> simp

/-- Witness for C10: the non-panic half applied at the concrete non-empty
input `"1G"`. -/
theorem parse_memory_string_empty_panics_witness :
    parse_memory_string (asc "1G") ≠ Outcome.panic :=
  parse_memory_string_empty_panics.2 (asc "1G") (by decide) (by decide)

/-! ## `src/container.rs` — `ContainerStatus` -/

/-- The error enum of `src/container.rs` (`container::Error`); the
`Bollard` variant wraps a transport error, modelled below. -/
inductive ContainerError where
  | containerNotFound
  | badContainerStatus (s : String)
  deriving DecidableEq, Repr

/-- The status of a Docker container (`ContainerStatus` in
`src/container.rs`). -/
inductive ContainerStatus where
  | created
  | running
  | paused
  | restarting
  | exited
  | removing
  | dead
  deriving DecidableEq, Repr

/-- `<ContainerStatus as FromStr>::from_str`: the seven lowercase engine
state tokens map to their variants, anything else is
`Error::BadContainerStatus` carrying the offending string. -/
def container_status_from_str (s : String) : Except ContainerError ContainerStatus :=
  if s = "created" then .ok .created
  else if s = "running" then .ok .running
  else if s = "paused" then .ok .paused
  else if s = "restarting" then .ok .restarting
  else if s = "exited" then .ok .exited
  else if s = "removing" then .ok .removing
  else if s = "dead" then .ok .dead
  else .error (.badContainerStatus s)

/-- `ContainerStatus::is_active`: `matches!(self, Running)`. -/
def ContainerStatus.is_active : ContainerStatus → Bool
  | .running => true
  | _ => false

/-- `ContainerStatus::is_usable`: `!matches!(self, Removing | Dead)`. -/
def ContainerStatus.is_usable : ContainerStatus → Bool
  | .removing => false
  | .dead => false
  | _ => true

/-- Modelled from the spec: the repository defines no status→string
conversion (there is no `Display`/`ToString` impl for `ContainerStatus`),
so the "back to the identical string" direction of the round-trip in §8 is
modelled as the canonical lowercase token of each `StatusCode` listed in
§3. -/
def statusToken : ContainerStatus → String
  | .created => "created"
  | .running => "running"
  | .paused => "paused"
  | .restarting => "restarting"
  | .exited => "exited"
  | .removing => "removing"
  | .dead => "dead"

/-- Claim C6: parsing accepts exactly the seven lowercase tokens, mapping
each to its variant; every other string fails with `BadContainerStatus`
carrying the offending string; and each accepted token round-trips through
its `StatusCode` back to the identical string. -/
theorem container_status_from_str_spec :
    (∀ c : ContainerStatus, container_status_from_str (statusToken c) = .ok c) ∧
    (∀ s : String, s ∉ ["created", "running", "paused", "restarting",
        "exited", "removing", "dead"] →
      container_status_from_str s = .error (.badContainerStatus s)) ∧
    (∀ (s : String) (c : ContainerStatus), container_status_from_str s = .ok c →
      statusToken c = s) := by
  refine ⟨?_, ?_, ?_⟩
  · intro c
    cases c <;> rfl
  · intro s hs
    simp only [List.mem_cons, List.mem_singleton, not_or] at hs
    obtain ⟨h1, h2, h3, h4, h5, h6, h7, -⟩ := hs
    simp [container_status_from_str, h1, h2, h3, h4, h5, h6, h7]
  · intro s c h
    unfold container_status_from_str at h
    split_ifs at h with h1 h2 h3 h4 h5 h6 h7 <;>
      injection h with h' <;> subst h' <;> simp_all [statusToken]

/-- Witness for C6: the round-trip at `"running"` and the failure at the
concrete unrecognized token `"bogus"`. -/
theorem container_status_from_str_spec_witness :
    container_status_from_str "running" = .ok .running ∧
    container_status_from_str "bogus" = .error (.badContainerStatus "bogus") ∧
    statusToken .running = "running" := by
  have h := container_status_from_str_spec
  exact ⟨by rw [show ("running" : String) = statusToken .running from rfl]; exact h.1 .running,
    h.2.1 "bogus" (by decide), h.2.2 "running" .running (h.1 .running)⟩

/-- Claim C9: `is_active` is true exactly on `Running`; `is_usable` is
false exactly on `Removing` and `Dead`; both are pure functions of the
status value. -/
theorem container_status_predicates_spec :
    ∀ s : ContainerStatus,
      (s.is_active = true ↔ s = .running) ∧
      (s.is_usable = false ↔ (s = .removing ∨ s = .dead)) := by
  intro s
  cases s <;> simp [ContainerStatus.is_active, ContainerStatus.is_usable]

/-- Witness for C9: the predicate characterization evaluated at `Running`
and `Dead`. -/
theorem container_status_predicates_spec_witness :
    ContainerStatus.is_active .running = true ∧
    ContainerStatus.is_usable .dead = false :=
  ⟨(container_status_predicates_spec .running).1.mpr rfl,
    (container_status_predicates_spec .dead).2.mpr (Or.inr rfl)⟩

/-! ## `src/container.rs` — configuration composition

The payload types mirror `bollard::container::Config<String>` and
`bollard::models::HostConfig`.  Field types that the merge logic only
clones (health checks, mounts, enum-valued modes, …) are given simple
stand-in types — the merge never inspects them.  `HostConfig` carries every
field the merge in `Container::create` touches, plus, as representatives of
bollard's remaining (never-merged) fields, the resource-limit fields that
`SystemRequirements::to_host_config` sets (`memory`, `memory_swap`,
`memory_reservation`, `nano_cpus`, `cpu_shares`, `cpuset_cpus`) and
`init`; the omitted bollard fields behave exactly like these (the merge
never reads them).  Likewise `Config` carries all of bollard's fields,
including the never-merged `networking_config`. -/

/-- `bollard::models::PortBinding`. -/
structure PortBinding where
  host_ip : Option String := none
  host_port : Option String := none
  deriving DecidableEq, Repr

/-- `bollard::models::PortMap` (a hash map, modelled as an association
list). -/
abbrev PortMap := List (String × Option (List PortBinding))

/-- `bollard::models::RestartPolicy`. -/
structure RestartPolicy where
  name : Option String := none
  maximum_retry_count : Option Int := none
  deriving DecidableEq, Repr

/-- Stand-in for `bollard::models::HealthConfig` (opaque to the merge). -/
structure HealthConfig where
  test : Option (List String) := none
  deriving DecidableEq, Repr

/-- Stand-in for `bollard::models::Mount` (opaque to the merge). -/
abbrev Mount := String

/-- `bollard::models::HostConfig` (see the section comment for the field
inventory). -/
structure HostConfig where
  binds : Option (List String) := none
  network_mode : Option String := none
  port_bindings : Option PortMap := none
  restart_policy : Option RestartPolicy := none
  auto_remove : Option Bool := none
  volume_driver : Option String := none
  volumes_from : Option (List String) := none
  mounts : Option (List Mount) := none
  cap_add : Option (List String) := none
  cap_drop : Option (List String) := none
  cgroupns_mode : Option String := none
  dns : Option (List String) := none
  dns_options : Option (List String) := none
  dns_search : Option (List String) := none
  extra_hosts : Option (List String) := none
  group_add : Option (List String) := none
  ipc_mode : Option String := none
  cgroup : Option String := none
  links : Option (List String) := none
  oom_score_adj : Option Int := none
  pid_mode : Option String := none
  privileged : Option Bool := none
  publish_all_ports : Option Bool := none
  readonly_rootfs : Option Bool := none
  security_opt : Option (List String) := none
  storage_opt : Option (List (String × String)) := none
  tmpfs : Option (List (String × String)) := none
  uts_mode : Option String := none
  userns_mode : Option String := none
  shm_size : Option Int := none
  sysctls : Option (List (String × String)) := none
  runtime : Option String := none
  console_size : Option (List Nat) := none
  isolation : Option String := none
  masked_paths : Option (List String) := none
  readonly_paths : Option (List String) := none
  memory : Option Int := none
  memory_swap : Option Int := none
  memory_reservation : Option Int := none
  nano_cpus : Option Int := none
  cpu_shares : Option Int := none
  cpuset_cpus : Option String := none
  init : Option Bool := none
  deriving DecidableEq, Repr

/-- `bollard::container::Config<String>`. -/
structure Config where
  hostname : Option String := none
  domainname : Option String := none
  user : Option String := none
  attach_stdin : Option Bool := none
  attach_stdout : Option Bool := none
  attach_stderr : Option Bool := none
  exposed_ports : Option (List String) := none
  tty : Option Bool := none
  open_stdin : Option Bool := none
  stdin_once : Option Bool := none
  env : Option (List String) := none
  cmd : Option (List String) := none
  healthcheck : Option HealthConfig := none
  args_escaped : Option Bool := none
  image : Option String := none
  volumes : Option (List String) := none
  working_dir : Option String := none
  entrypoint : Option (List String) := none
  network_disabled : Option Bool := none
  mac_address : Option String := none
  on_build : Option (List String) := none
  labels : Option (List (String × String)) := none
  stop_signal : Option String := none
  stop_timeout : Option Int := none
  shell : Option (List String) := none
  host_config : Option HostConfig := none
  networking_config : Option String := none
  deriving DecidableEq, Repr

/-- `ContainerOptions` from `src/container.rs`. -/
structure ContainerOptions where
  name : Option String := none
  env : Option (List String) := none
  cmd : Option (List String) := none
  binds : Option (List String) := none
  extra_hosts : Option (List String) := none
  runtime : Option String := none
  port_bindings : Option PortMap := none
  restart_policy : Option RestartPolicy := none
  config_override : Option Config := none
  deriving DecidableEq, Repr

/-- One `if let Some(val) = override.f { config.f = Some(val.clone()) }`
step of the merge in `Container::create`: keep the base value unless the
override sets the field. -/
def mergeField {α : Type} (base ov : Option α) : Option α :=
  match ov with
  | some v => some v
  | none => base

/-- The base configuration `Container::create` synthesizes from the
accumulated options before any override is applied
(`src/container.rs:548-562`). -/
def base_config (image : String) (o : ContainerOptions) : Config :=
  { image := some image
    cmd := o.cmd
    env := o.env
    attach_stdout := some true
    host_config := some
      { binds := o.binds
        extra_hosts := o.extra_hosts
        port_bindings := o.port_bindings
        restart_policy := o.restart_policy
        runtime := o.runtime } }

/-- The nested host-configuration merge inside `Container::create`
(`src/container.rs:644-759`): the enumerated fields take the override
value when set; every other field (here `memory`, `memory_swap`,
`memory_reservation`, `nano_cpus`, `cpu_shares`, `cpuset_cpus`, `init`,
standing in for all remaining bollard fields) is left at the base value —
the source has no `if let` arm for them. -/
def merge_host_config (h ovh : HostConfig) : HostConfig :=
  { binds := mergeField h.binds ovh.binds
    network_mode := mergeField h.network_mode ovh.network_mode
    port_bindings := mergeField h.port_bindings ovh.port_bindings
    restart_policy := mergeField h.restart_policy ovh.restart_policy
    auto_remove := mergeField h.auto_remove ovh.auto_remove
    volume_driver := mergeField h.volume_driver ovh.volume_driver
    volumes_from := mergeField h.volumes_from ovh.volumes_from
    mounts := mergeField h.mounts ovh.mounts
    cap_add := mergeField h.cap_add ovh.cap_add
    cap_drop := mergeField h.cap_drop ovh.cap_drop
    cgroupns_mode := mergeField h.cgroupns_mode ovh.cgroupns_mode
    dns := mergeField h.dns ovh.dns
    dns_options := mergeField h.dns_options ovh.dns_options
    dns_search := mergeField h.dns_search ovh.dns_search
    extra_hosts := mergeField h.extra_hosts ovh.extra_hosts
    group_add := mergeField h.group_add ovh.group_add
    ipc_mode := mergeField h.ipc_mode ovh.ipc_mode
    cgroup := mergeField h.cgroup ovh.cgroup
    links := mergeField h.links ovh.links
    oom_score_adj := mergeField h.oom_score_adj ovh.oom_score_adj
    pid_mode := mergeField h.pid_mode ovh.pid_mode
    privileged := mergeField h.privileged ovh.privileged
    publish_all_ports := mergeField h.publish_all_ports ovh.publish_all_ports
    readonly_rootfs := mergeField h.readonly_rootfs ovh.readonly_rootfs
    security_opt := mergeField h.security_opt ovh.security_opt
    storage_opt := mergeField h.storage_opt ovh.storage_opt
    tmpfs := mergeField h.tmpfs ovh.tmpfs
    uts_mode := mergeField h.uts_mode ovh.uts_mode
    userns_mode := mergeField h.userns_mode ovh.userns_mode
    shm_size := mergeField h.shm_size ovh.shm_size
    sysctls := mergeField h.sysctls ovh.sysctls
    runtime := mergeField h.runtime ovh.runtime
    console_size := mergeField h.console_size ovh.console_size
    isolation := mergeField h.isolation ovh.isolation
    masked_paths := mergeField h.masked_paths ovh.masked_paths
    readonly_paths := mergeField h.readonly_paths ovh.readonly_paths
    memory := h.memory
    memory_swap := h.memory_swap
    memory_reservation := h.memory_reservation
    nano_cpus := h.nano_cpus
    cpu_shares := h.cpu_shares
    cpuset_cpus := h.cpuset_cpus
    init := h.init }

/-- The override application of `Container::create`
(`src/container.rs:565-760`): each listed `Config` field takes the
override value when set; `networking_config` has no `if let` arm in the
source and is left at the base value; `host_config` is merged one level
deep via `merge_host_config`, starting from
`config.host_config.unwrap_or_default()`. -/
def apply_override (config ov : Config) : Config :=
  { hostname := mergeField config.hostname ov.hostname
    domainname := mergeField config.domainname ov.domainname
    user := mergeField config.user ov.user
    attach_stdin := mergeField config.attach_stdin ov.attach_stdin
    attach_stdout := mergeField config.attach_stdout ov.attach_stdout
    attach_stderr := mergeField config.attach_stderr ov.attach_stderr
    exposed_ports := mergeField config.exposed_ports ov.exposed_ports
    tty := mergeField config.tty ov.tty
    open_stdin := mergeField config.open_stdin ov.open_stdin
    stdin_once := mergeField config.stdin_once ov.stdin_once
    env := mergeField config.env ov.env
    cmd := mergeField config.cmd ov.cmd
    healthcheck := mergeField config.healthcheck ov.healthcheck
    args_escaped := mergeField config.args_escaped ov.args_escaped
    image := mergeField config.image ov.image
    volumes := mergeField config.volumes ov.volumes
    working_dir := mergeField config.working_dir ov.working_dir
    entrypoint := mergeField config.entrypoint ov.entrypoint
    network_disabled := mergeField config.network_disabled ov.network_disabled
    mac_address := mergeField config.mac_address ov.mac_address
    on_build := mergeField config.on_build ov.on_build
    labels := mergeField config.labels ov.labels
    stop_signal := mergeField config.stop_signal ov.stop_signal
    stop_timeout := mergeField config.stop_timeout ov.stop_timeout
    shell := mergeField config.shell ov.shell
    host_config :=
      match ov.host_config with
      | none => config.host_config
      | some ovh => some (merge_host_config (config.host_config.getD {}) ovh)
    networking_config := config.networking_config }

/-- The payload `Container::create` submits: the base configuration, with
the override applied when one was set. -/
def merged_config (image : String) (o : ContainerOptions) : Config :=
  match o.config_override with
  | none => base_config image o
  | some ov => apply_override (base_config image o) ov

/-- Projection of a payload's host configuration
(`unwrap_or_default`-style, for stating theorems). -/
def hostOf (c : Config) : HostConfig :=
  c.host_config.getD {}

lemma mergeField_isSome {α : Type} (b : Option α) {o : Option α}
    (h : o.isSome) : mergeField b o = o := by
  cases o
  · simp at h
  · rfl

lemma mergeField_idem {α : Type} (b o : Option α) :
    mergeField (mergeField b o) o = mergeField b o := by
  cases o <;> rfl

lemma merge_host_config_idem (h ovh : HostConfig) :
    merge_host_config (merge_host_config h ovh) ovh = merge_host_config h ovh := by
  simp [merge_host_config, mergeField_idem]

/-- Claim C5: merging is a deterministic function of base and override
(being a pure function), applying the same override twice yields the same
payload as applying it once, and with no override set the submitted
payload is the base configuration unchanged. -/
theorem merge_idempotent_and_identity :
    (∀ (image : String) (o : ContainerOptions), o.config_override = none →
      merged_config image o = base_config image o) ∧
    (∀ c ov : Config,
      apply_override (apply_override c ov) ov = apply_override c ov) := by
  constructor
  · intro image o h
    unfold merged_config
    rw [h]
  · intro c ov
    cases hov : ov.host_config <;>
      simp [apply_override, hov, mergeField_idem, merge_host_config_idem]

/-- Witness for C5: the identity half at a concrete option set with no
override, and the idempotence half at a concrete base and override. -/
theorem merge_idempotent_and_identity_witness :
    merged_config "alpine" { cmd := some ["echo", "hi"] } =
      base_config "alpine" { cmd := some ["echo", "hi"] } ∧
    apply_override (apply_override {} { env := some ["A=1"] }) { env := some ["A=1"] } =
      apply_override {} { env := some ["A=1"] } :=
  ⟨merge_idempotent_and_identity.1 "alpine" { cmd := some ["echo", "hi"] } rfl,
    merge_idempotent_and_identity.2 {} { env := some ["A=1"] }⟩

/-- Counterexample to C1 as stated: an override that sets the nested host
field `memory` (a field of `bollard::models::HostConfig` with no `if let`
arm in the merge of `Container::create`) is silently dropped — the
submitted payload's host configuration has `memory = none`. -/
theorem config_override_dropped_counterexample :
    (({ host_config := some { memory := some 536870912 } } : Config).host_config.getD {}).memory
        = some 536870912 ∧
    (hostOf (merged_config "alpine"
        { config_override := some { host_config := some { memory := some 536870912 } } })).memory
        = none :=
  ⟨rfl, rfl⟩

/-- Claim C1 (amended): every field the override explicitly sets **among
those the merge handles** (all `Config` fields except
`networking_config`, and the 36 enumerated `HostConfig` fields) appears in
the submitted payload with exactly the override's value, wholesale
replacing the base value (no element-wise union for list-valued fields);
override-set fields outside this enumerated set (such as the host
resource-limit fields or `networking_config`) are dropped. -/
theorem config_override_precedence (image : String) (o : ContainerOptions)
    (ov : Config) (hov : o.config_override = some ov) :
    (ov.hostname.isSome → (merged_config image o).hostname = ov.hostname) ∧
    (ov.domainname.isSome → (merged_config image o).domainname = ov.domainname) ∧
    (ov.user.isSome → (merged_config image o).user = ov.user) ∧
    (ov.attach_stdin.isSome → (merged_config image o).attach_stdin = ov.attach_stdin) ∧
    (ov.attach_stdout.isSome → (merged_config image o).attach_stdout = ov.attach_stdout) ∧
    (ov.attach_stderr.isSome → (merged_config image o).attach_stderr = ov.attach_stderr) ∧
    (ov.exposed_ports.isSome → (merged_config image o).exposed_ports = ov.exposed_ports) ∧
    (ov.tty.isSome → (merged_config image o).tty = ov.tty) ∧
    (ov.open_stdin.isSome → (merged_config image o).open_stdin = ov.open_stdin) ∧
    (ov.stdin_once.isSome → (merged_config image o).stdin_once = ov.stdin_once) ∧
    (ov.env.isSome → (merged_config image o).env = ov.env) ∧
    (ov.cmd.isSome → (merged_config image o).cmd = ov.cmd) ∧
    (ov.healthcheck.isSome → (merged_config image o).healthcheck = ov.healthcheck) ∧
    (ov.args_escaped.isSome → (merged_config image o).args_escaped = ov.args_escaped) ∧
    (ov.image.isSome → (merged_config image o).image = ov.image) ∧
    (ov.volumes.isSome → (merged_config image o).volumes = ov.volumes) ∧
    (ov.working_dir.isSome → (merged_config image o).working_dir = ov.working_dir) ∧
    (ov.entrypoint.isSome → (merged_config image o).entrypoint = ov.entrypoint) ∧
    (ov.network_disabled.isSome → (merged_config image o).network_disabled = ov.network_disabled) ∧
    (ov.mac_address.isSome → (merged_config image o).mac_address = ov.mac_address) ∧
    (ov.on_build.isSome → (merged_config image o).on_build = ov.on_build) ∧
    (ov.labels.isSome → (merged_config image o).labels = ov.labels) ∧
    (ov.stop_signal.isSome → (merged_config image o).stop_signal = ov.stop_signal) ∧
    (ov.stop_timeout.isSome → (merged_config image o).stop_timeout = ov.stop_timeout) ∧
    (ov.shell.isSome → (merged_config image o).shell = ov.shell) ∧
    (merged_config image o).host_config.isSome = true ∧
    (∀ ovh, ov.host_config = some ovh →
      (ovh.binds.isSome → (hostOf (merged_config image o)).binds = ovh.binds) ∧
      (ovh.network_mode.isSome → (hostOf (merged_config image o)).network_mode = ovh.network_mode) ∧
      (ovh.port_bindings.isSome → (hostOf (merged_config image o)).port_bindings = ovh.port_bindings) ∧
      (ovh.restart_policy.isSome → (hostOf (merged_config image o)).restart_policy = ovh.restart_policy) ∧
      (ovh.auto_remove.isSome → (hostOf (merged_config image o)).auto_remove = ovh.auto_remove) ∧
      (ovh.volume_driver.isSome → (hostOf (merged_config image o)).volume_driver = ovh.volume_driver) ∧
      (ovh.volumes_from.isSome → (hostOf (merged_config image o)).volumes_from = ovh.volumes_from) ∧
      (ovh.mounts.isSome → (hostOf (merged_config image o)).mounts = ovh.mounts) ∧
      (ovh.cap_add.isSome → (hostOf (merged_config image o)).cap_add = ovh.cap_add) ∧
      (ovh.cap_drop.isSome → (hostOf (merged_config image o)).cap_drop = ovh.cap_drop) ∧
      (ovh.cgroupns_mode.isSome → (hostOf (merged_config image o)).cgroupns_mode = ovh.cgroupns_mode) ∧
      (ovh.dns.isSome → (hostOf (merged_config image o)).dns = ovh.dns) ∧
      (ovh.dns_options.isSome → (hostOf (merged_config image o)).dns_options = ovh.dns_options) ∧
      (ovh.dns_search.isSome → (hostOf (merged_config image o)).dns_search = ovh.dns_search) ∧
      (ovh.extra_hosts.isSome → (hostOf (merged_config image o)).extra_hosts = ovh.extra_hosts) ∧
      (ovh.group_add.isSome → (hostOf (merged_config image o)).group_add = ovh.group_add) ∧
      (ovh.ipc_mode.isSome → (hostOf (merged_config image o)).ipc_mode = ovh.ipc_mode) ∧
      (ovh.cgroup.isSome → (hostOf (merged_config image o)).cgroup = ovh.cgroup) ∧
      (ovh.links.isSome → (hostOf (merged_config image o)).links = ovh.links) ∧
      (ovh.oom_score_adj.isSome → (hostOf (merged_config image o)).oom_score_adj = ovh.oom_score_adj) ∧
      (ovh.pid_mode.isSome → (hostOf (merged_config image o)).pid_mode = ovh.pid_mode) ∧
      (ovh.privileged.isSome → (hostOf (merged_config image o)).privileged = ovh.privileged) ∧
      (ovh.publish_all_ports.isSome → (hostOf (merged_config image o)).publish_all_ports = ovh.publish_all_ports) ∧
      (ovh.readonly_rootfs.isSome → (hostOf (merged_config image o)).readonly_rootfs = ovh.readonly_rootfs) ∧
      (ovh.security_opt.isSome → (hostOf (merged_config image o)).security_opt = ovh.security_opt) ∧
      (ovh.storage_opt.isSome → (hostOf (merged_config image o)).storage_opt = ovh.storage_opt) ∧
      (ovh.tmpfs.isSome → (hostOf (merged_config image o)).tmpfs = ovh.tmpfs) ∧
      (ovh.uts_mode.isSome → (hostOf (merged_config image o)).uts_mode = ovh.uts_mode) ∧
      (ovh.userns_mode.isSome → (hostOf (merged_config image o)).userns_mode = ovh.userns_mode) ∧
      (ovh.shm_size.isSome → (hostOf (merged_config image o)).shm_size = ovh.shm_size) ∧
      (ovh.sysctls.isSome → (hostOf (merged_config image o)).sysctls = ovh.sysctls) ∧
      (ovh.runtime.isSome → (hostOf (merged_config image o)).runtime = ovh.runtime) ∧
      (ovh.console_size.isSome → (hostOf (merged_config image o)).console_size = ovh.console_size) ∧
      (ovh.isolation.isSome → (hostOf (merged_config image o)).isolation = ovh.isolation) ∧
      (ovh.masked_paths.isSome → (hostOf (merged_config image o)).masked_paths = ovh.masked_paths) ∧
      (ovh.readonly_paths.isSome → (hostOf (merged_config image o)).readonly_paths = ovh.readonly_paths)) := by
  have hm : merged_config image o = apply_override (base_config image o) ov := by
    unfold merged_config
    rw [hov]
  rw [hm]
  refine ⟨fun h => mergeField_isSome _ h, fun h => mergeField_isSome _ h,
    fun h => mergeField_isSome _ h, fun h => mergeField_isSome _ h,
    fun h => mergeField_isSome _ h, fun h => mergeField_isSome _ h,
    fun h => mergeField_isSome _ h, fun h => mergeField_isSome _ h,
    fun h => mergeField_isSome _ h, fun h => mergeField_isSome _ h,
    fun h => mergeField_isSome _ h, fun h => mergeField_isSome _ h,
    fun h => mergeField_isSome _ h, fun h => mergeField_isSome _ h,
    fun h => mergeField_isSome _ h, fun h => mergeField_isSome _ h,
    fun h => mergeField_isSome _ h, fun h => mergeField_isSome _ h,
    fun h => mergeField_isSome _ h, fun h => mergeField_isSome _ h,
    fun h => mergeField_isSome _ h, fun h => mergeField_isSome _ h,
    fun h => mergeField_isSome _ h, fun h => mergeField_isSome _ h,
    fun h => mergeField_isSome _ h, ?_, ?_⟩
  · cases hoc : ov.host_config <;> simp [apply_override, base_config, hoc]
  · intro ovh hovh
    have hh : hostOf (apply_override (base_config image o) ov) =
        merge_host_config ((base_config image o).host_config.getD {}) ovh := by
      simp [hostOf, apply_override, hovh]
    rw [hh]
    exact ⟨fun h => mergeField_isSome _ h, fun h => mergeField_isSome _ h,
      fun h => mergeField_isSome _ h, fun h => mergeField_isSome _ h,
      fun h => mergeField_isSome _ h, fun h => mergeField_isSome _ h,
      fun h => mergeField_isSome _ h, fun h => mergeField_isSome _ h,
      fun h => mergeField_isSome _ h, fun h => mergeField_isSome _ h,
      fun h => mergeField_isSome _ h, fun h => mergeField_isSome _ h,
      fun h => mergeField_isSome _ h, fun h => mergeField_isSome _ h,
      fun h => mergeField_isSome _ h, fun h => mergeField_isSome _ h,
      fun h => mergeField_isSome _ h, fun h => mergeField_isSome _ h,
      fun h => mergeField_isSome _ h, fun h => mergeField_isSome _ h,
      fun h => mergeField_isSome _ h, fun h => mergeField_isSome _ h,
      fun h => mergeField_isSome _ h, fun h => mergeField_isSome _ h,
      fun h => mergeField_isSome _ h, fun h => mergeField_isSome _ h,
      fun h => mergeField_isSome _ h, fun h => mergeField_isSome _ h,
      fun h => mergeField_isSome _ h, fun h => mergeField_isSome _ h,
      fun h => mergeField_isSome _ h, fun h => mergeField_isSome _ h,
      fun h => mergeField_isSome _ h, fun h => mergeField_isSome _ h,
      fun h => mergeField_isSome _ h, fun h => mergeField_isSome _ h⟩

/-- Witness for C1 (amended): an override setting `hostname`, `cmd` and
the nested host `binds` appears verbatim in the submitted payload. -/
def c1WitnessOverride : Config :=
  { hostname := some "h"
    cmd := some ["ls"]
    host_config := some { binds := some ["a:/b"] } }

def c1WitnessOptions : ContainerOptions :=
  { config_override := some c1WitnessOverride }

theorem config_override_precedence_witness :
    (merged_config "alpine" c1WitnessOptions).hostname = some "h" ∧
    (merged_config "alpine" c1WitnessOptions).cmd = some ["ls"] ∧
    (hostOf (merged_config "alpine" c1WitnessOptions)).binds = some ["a:/b"] := by
  have h := config_override_precedence "alpine" c1WitnessOptions c1WitnessOverride rfl
  obtain ⟨h1, _, _, _, _, _, _, _, _, _, _, h12, _, _, _, _, _, _, _, _, _,
    _, _, _, _, _, hhost⟩ := h
  exact ⟨h1 rfl, h12 rfl,
    (hhost { binds := some ["a:/b"] } rfl).1 rfl⟩

/-! ## `src/container.rs` — lifecycle operations

The remote Docker engine (`bollard::Docker`, held behind an `Arc`) is
modelled as an explicit collaborator value: the responses it would return
to each kind of request, plus the wait stream (as the list of messages the
stream yields).  Each lifecycle operation returns the list of engine calls
it issued, in order, alongside its result, so ordering and "no call
issued" properties can be stated directly. -/

/-- Stand-in for `bollard::errors::Error`: the wait-error variant that
`wait_for_container` constructs is modelled precisely; every other
transport error is carried opaquely. -/
inductive BollardError where
  | dockerContainerWaitError (error : String) (code : Int)
  | transport (msg : String)
  deriving DecidableEq, Repr

/-- One message of the wait stream
(`bollard::models::ContainerWaitResponse` or a transport error): `ok`
carries `status_code` and the optional error detail
(`ContainerWaitResponseError`, whose `message` is itself optional). -/
inductive WaitMsg where
  | ok (status_code : Int) (error : Option (Option String))
  | err (e : BollardError)
  deriving DecidableEq, Repr

/-- `wait_for_container` from `src/container.rs:1068-1104`, consuming the
wait stream: break (then `Ok(())`) on the first zero status code; on a
non-zero code with error detail, return `DockerContainerWaitError` with
`err.message.unwrap_or_default()` and the status code; on a bare non-zero
code, keep consuming; on a stream `Err`, return it unchanged; `Ok(())`
when the stream ends. -/
def wait_for_container (msgs : List WaitMsg) : Except BollardError Unit :=
  match msgs with
  | [] => .ok ()
  | WaitMsg.ok status_code error :: rest =>
    if status_code = 0 then .ok ()
    else
      match error with
      | some err =>
          .error (.dockerContainerWaitError (err.getD "") status_code)
      | none => wait_for_container rest
  | WaitMsg.err e :: _ => .error e

/-- `bollard::models::ContainerCreateResponse`. -/
structure ContainerCreateResponse where
  id : String := ""
  warnings : List String := []
  deriving DecidableEq, Repr

/-- Record of one container listed by the engine; only the `state` field
is read by `Container::status`. -/
structure ContainerSummary where
  state : Option String := none
  deriving DecidableEq, Repr

/-- Stand-in for `bollard::container::RemoveContainerOptions`. -/
structure RemoveContainerOptions where
  force : Bool := false
  v : Bool := false
  link : Bool := false
  deriving DecidableEq, Repr

/-- One request issued to the engine collaborator. -/
inductive EngineCall where
  | createContainer (name : Option String) (config : Config)
  | startContainer (id : String)
  | stopContainer (id : String)
  | removeContainer (id : String) (options : Option RemoveContainerOptions)
  | waitContainer (id : String)
  | listContainers (idFilter : String)
  deriving DecidableEq, Repr

/-- The engine collaborator: the response each request kind would produce
(the `list_containers` response is the record list for the id filter). -/
structure Engine where
  create_response : Except BollardError ContainerCreateResponse := .ok {}
  start_response : Except BollardError Unit := .ok ()
  stop_response : Except BollardError Unit := .ok ()
  remove_response : Except BollardError Unit := .ok ()
  wait_stream : List WaitMsg := []
  list_response : List ContainerSummary := []

/-- The `Container` entity (`src/container.rs:77-83`); the shared engine
handle (`client : Arc<Docker>`) is passed to each operation explicitly as
the `Engine` collaborator value. -/
structure Container where
  id : Option String := none
  name : Option String := none
  image : String
  options : ContainerOptions := {}
  deriving DecidableEq, Repr

/-- `Container::new`. -/
def Container.new (image : String) : Container :=
  { id := none, name := none, image := image, options := {} }

/-- Builder `Container::cmd`. -/
def Container.cmd (c : Container) (cmd : List String) : Container :=
  { c with options := { c.options with cmd := some cmd } }

/-- Builder `Container::env`. -/
def Container.env (c : Container) (env : List String) : Container :=
  { c with options := { c.options with env := some env } }

/-- `Container::create` (`src/container.rs:544-778`): composes the payload
(base plus override), issues `create_container` with the optional name,
and on success stores the returned id (warnings are only logged). -/
def container_create (c : Container) (eng : Engine) :
    Container × List EngineCall × Except BollardError Unit :=
  let call := EngineCall.createContainer c.options.name
    (merged_config c.image c.options)
  match eng.create_response with
  | .error e => (c, [call], .error e)
  | .ok resp => ({ c with id := some resp.id }, [call], .ok ())

/-- `Container::wait` (`src/container.rs:997-1005`): a no-op returning
success when the container was never created; otherwise delegates to
`wait_for_container` on the wait stream. -/
def container_wait (c : Container) (eng : Engine) :
    List EngineCall × Except BollardError Unit :=
  match c.id with
  | none => ([], .ok ())
  | some id => ([EngineCall.waitContainer id], wait_for_container eng.wait_stream)

/-- `Container::start` (`src/container.rs:808-824`): creates first when no
id is stored (propagating a creation failure), unwraps the stored id (the
`unwrap` panic branch is unreachable after a successful create), issues
`start_container`, and when `wait_for_exit` is set delegates to
`Container::wait` before returning. -/
def container_start (c : Container) (wait_for_exit : Bool) (eng : Engine) :
    Container × List EngineCall × Outcome BollardError Unit :=
  match (if c.id.isNone then container_create c eng else (c, [], Except.ok ())) with
  | (c1, calls1, .error e) => (c1, calls1, .err e)
  | (c1, calls1, .ok _) =>
    match c1.id with
    | none => (c1, calls1, .panic)
    | some id =>
      match eng.start_response with
      | .error e => (c1, calls1 ++ [EngineCall.startContainer id], .err e)
      | .ok _ =>
        if wait_for_exit then
          match container_wait c1 eng with
          | (wcalls, .error e) =>
              (c1, calls1 ++ [EngineCall.startContainer id] ++ wcalls, .err e)
          | (wcalls, .ok _) =>
              (c1, calls1 ++ [EngineCall.startContainer id] ++ wcalls, .ok ())
        else (c1, calls1 ++ [EngineCall.startContainer id], .ok ())

/-- `Container::stop` (`src/container.rs:912-923`): a no-op returning
success when the container was never created; otherwise issues
`stop_container`. -/
def container_stop (c : Container) (eng : Engine) :
    List EngineCall × Except BollardError Unit :=
  match c.id with
  | none => ([], .ok ())
  | some id => ([EngineCall.stopContainer id], eng.stop_response)

/-- `Container::remove` (`src/container.rs:959-970`): a no-op returning
success when the container was never created; otherwise issues
`remove_container` (the Rust method consumes `self`, which a pure function
models vacuously). -/
def container_remove (c : Container) (options : Option RemoveContainerOptions)
    (eng : Engine) : List EngineCall × Except BollardError Unit :=
  match c.id with
  | none => ([], .ok ())
  | some id => ([EngineCall.removeContainer id options], eng.remove_response)

/-- `Container::status` (`src/container.rs:864-884`): `Ok(None)` when
never created; otherwise lists containers filtered by id and indexes
`containers[0]` — a panic when the engine returns no record — then
returns `Ok(None)` when the record has no state string, else parses it
via `ContainerStatus::from_str`. -/
def container_status (c : Container) (eng : Engine) :
    List EngineCall × Outcome ContainerError (Option ContainerStatus) :=
  match c.id with
  | none => ([], .ok none)
  | some id =>
    match eng.list_response.head? with
    | none => ([EngineCall.listContainers id], .panic)
    | some c0 =>
      match c0.state with
      | none => ([EngineCall.listContainers id], .ok none)
      | some s =>
        match container_status_from_str s with
        | .ok st => ([EngineCall.listContainers id], .ok (some st))
        | .error e => ([EngineCall.listContainers id], .err e)

/-! ## Theorems about the lifecycle operations -/

/-- Claim C3: the wait stream resolves to exactly one outcome — success on
the first zero status code (independent of the rest of the stream),
transport errors propagated unchanged, failure carrying both the engine
error message and the code on a non-zero status with error detail,
continued consumption on a bare non-zero status, and success on
exhaustion. -/
theorem wait_for_container_spec :
    (∀ (rest : List WaitMsg) (errd : Option (Option String)),
      wait_for_container (WaitMsg.ok 0 errd :: rest) = .ok ()) ∧
    (∀ (rest : List WaitMsg) (e : BollardError),
      wait_for_container (WaitMsg.err e :: rest) = .error e) ∧
    (∀ (rest : List WaitMsg) (code : Int) (m : Option String), code ≠ 0 →
      wait_for_container (WaitMsg.ok code (some m) :: rest) =
        .error (.dockerContainerWaitError (m.getD "") code)) ∧
    (∀ (rest : List WaitMsg) (code : Int), code ≠ 0 →
      wait_for_container (WaitMsg.ok code none :: rest) =
        wait_for_container rest) ∧
    wait_for_container [] = .ok () := by
  refine ⟨?_, ?_, ?_, ?_, rfl⟩
  · intro rest errd
    simp [wait_for_container]
  · intro rest e
    rfl
  · intro rest code m hc
    simp [wait_for_container, hc]
  · intro rest code hc
    simp [wait_for_container, hc]

/-- Witness for C3: each branch of the wait protocol at a concrete
stream. -/
theorem wait_for_container_spec_witness :
    wait_for_container [WaitMsg.ok 0 none, WaitMsg.err (BollardError.transport "boom")] =
      .ok () ∧
    wait_for_container [WaitMsg.err (BollardError.transport "boom")] =
      .error (BollardError.transport "boom") ∧
    wait_for_container [WaitMsg.ok 3 (some (some "bad"))] =
      .error (.dockerContainerWaitError "bad" 3) ∧
    wait_for_container [WaitMsg.ok 3 none, WaitMsg.ok 0 none] =
      wait_for_container [WaitMsg.ok 0 none] :=
  ⟨wait_for_container_spec.1 [WaitMsg.err (BollardError.transport "boom")] none,
    wait_for_container_spec.2.1 [] (BollardError.transport "boom"),
    wait_for_container_spec.2.2.1 [] 3 (some "bad") (by decide),
    wait_for_container_spec.2.2.2.1 [WaitMsg.ok 0 none] 3 (by decide)⟩

/-- Claim C8: `stop()`, `remove(None)`, and `wait()` on a container that
was never created or started return success and issue no engine call. -/
theorem never_created_noop (c : Container) (eng : Engine) (h : c.id = none) :
    container_stop c eng = ([], .ok ()) ∧
    container_remove c none eng = ([], .ok ()) ∧
    container_wait c eng = ([], .ok ()) := by
  refine ⟨?_, ?_, ?_⟩ <;>
    simp [container_stop, container_remove, container_wait, h]

/-- Witness for C8: a freshly constructed container against an arbitrary
engine. -/
theorem never_created_noop_witness :
    container_stop (Container.new "alpine") {} = ([], .ok ()) ∧
    container_remove (Container.new "alpine") none {} = ([], .ok ()) ∧
    container_wait (Container.new "alpine") {} = ([], .ok ()) :=
  never_created_noop (Container.new "alpine") {} rfl

/-- Counterexample to C2 as stated: when the engine's list query returns
no matching record, `Container::status` indexes `containers[0]` out of
bounds and panics — it does not return an error value. -/
theorem container_status_no_record_counterexample :
    (container_status { image := "alpine", id := some "abc" }
        { list_response := [] }).2 = Outcome.panic ∧
    ¬ ∃ e, (container_status { image := "alpine", id := some "abc" }
        { list_response := [] }).2 = Outcome.err e := by
  refine ⟨rfl, ?_⟩
  rintro ⟨e, h⟩
  rw [show (container_status { image := "alpine", id := some "abc" }
    { list_response := [] }).2 = Outcome.panic from rfl] at h
  exact Outcome.noConfusion h

/-- Claim C2 (amended): `status()` returns `None` when the container was
never created; otherwise it queries the engine by identifier filter and
parses the reported state string, and an unparseable state string yields
an error — but a query returning no matching record panics (out-of-bounds
index) rather than yielding an error, and a matching record with no state
string yields a silent `None`. -/
theorem container_status_spec (c : Container) (eng : Engine) :
    (c.id = none → container_status c eng = ([], .ok none)) ∧
    (∀ id, c.id = some id → eng.list_response = [] →
      container_status c eng = ([EngineCall.listContainers id], .panic)) ∧
    (∀ id c0 rest s e, c.id = some id → eng.list_response = c0 :: rest →
      c0.state = some s → container_status_from_str s = .error e →
      container_status c eng = ([EngineCall.listContainers id], .err e)) ∧
    (∀ id c0 rest, c.id = some id → eng.list_response = c0 :: rest →
      c0.state = none →
      container_status c eng = ([EngineCall.listContainers id], .ok none)) ∧
    (∀ id c0 rest s st, c.id = some id → eng.list_response = c0 :: rest →
      c0.state = some s → container_status_from_str s = .ok st →
      container_status c eng = ([EngineCall.listContainers id], .ok (some st))) := by
  refine ⟨?_, ?_, ?_, ?_, ?_⟩
  · intro h
    simp [container_status, h]
  · intro id h1 h2
    simp [container_status, h1, h2]
  · intro id c0 rest s e h1 h2 h3 h4
    simp [container_status, h1, h2, h3, h4]
  · intro id c0 rest h1 h2 h3
    simp [container_status, h1, h2, h3]
  · intro id c0 rest s st h1 h2 h3 h4
    simp [container_status, h1, h2, h3, h4]

/-- Witness for C2 (amended): never-created gives `None`; a record in
state `"running"` parses; a record in an unrecognized state `"zombie"`
errors. -/
theorem container_status_spec_witness :
    container_status { image := "alpine" } {} = ([], .ok none) ∧
    container_status { image := "alpine", id := some "x" }
        { list_response := [{ state := some "running" }] } =
      ([EngineCall.listContainers "x"], .ok (some .running)) ∧
    container_status { image := "alpine", id := some "x" }
        { list_response := [{ state := some "zombie" }] } =
      ([EngineCall.listContainers "x"],
        .err (.badContainerStatus "zombie")) :=
  ⟨(container_status_spec { image := "alpine" } {}).1 rfl,
    (container_status_spec { image := "alpine", id := some "x" }
        { list_response := [{ state := some "running" }] }).2.2.2.2
      "x" { state := some "running" } [] "running" .running rfl rfl rfl rfl,
    (container_status_spec { image := "alpine", id := some "x" }
        { list_response := [{ state := some "zombie" }] }).2.2.1
      "x" { state := some "zombie" } [] "zombie"
      (.badContainerStatus "zombie") rfl rfl rfl rfl⟩

/-- Lift of a `Result` into the panic-aware outcome (how `start`
propagates the result of `wait`). -/
def liftWait : Except BollardError Unit → Outcome BollardError Unit
  | .ok _ => .ok ()
  | .error e => .err e

/-- The end-to-end scenario container of spec §8: image `"alpine"`,
command `["echo", "hi"]`. -/
def scenarioContainer : Container :=
  (Container.new "alpine").cmd ["echo", "hi"]

/-- The end-to-end scenario engine: creation returns id `"cid"`, start
succeeds, the wait stream reports `status_code = 0`. -/
def scenarioEngine : Engine :=
  { create_response := .ok { id := "cid" }
    wait_stream := [WaitMsg.ok 0 none] }

/-- Claim C7: `start(wait_for_exit)` on a container with no identifier
performs `create()` first, then issues the start request for the stored
identifier, and with `wait_for_exit = true` delegates to `wait()` before
returning; in the end-to-end scenario (image `"alpine"`, command
`["echo","hi"]`) the calls are create then start then wait, in that
order, and the wait resolves successfully on the stream reporting
`status_code = 0`. -/
theorem container_start_spec (c : Container) (eng : Engine)
    (resp : ContainerCreateResponse) (hid : c.id = none)
    (hc : eng.create_response = .ok resp) (hs : eng.start_response = .ok ()) :
    container_start c true eng =
      ({ c with id := some resp.id },
       [EngineCall.createContainer c.options.name (merged_config c.image c.options),
        EngineCall.startContainer resp.id, EngineCall.waitContainer resp.id],
       liftWait (wait_for_container eng.wait_stream)) ∧
    (wait_for_container eng.wait_stream = .ok () →
      (container_start c true eng).2.2 = .ok ()) ∧
    container_start scenarioContainer true scenarioEngine =
      ({ scenarioContainer with id := some "cid" },
       [EngineCall.createContainer none (merged_config "alpine" scenarioContainer.options),
        EngineCall.startContainer "cid", EngineCall.waitContainer "cid"],
       .ok ()) := by
  have key : container_start c true eng =
      ({ c with id := some resp.id },
       [EngineCall.createContainer c.options.name (merged_config c.image c.options),
        EngineCall.startContainer resp.id, EngineCall.waitContainer resp.id],
       liftWait (wait_for_container eng.wait_stream)) := by
    cases hw : wait_for_container eng.wait_stream <;>
      simp [container_start, container_create, container_wait, liftWait,
        hid, hc, hs, hw]
  refine ⟨key, ?_, rfl⟩
  intro hok
  rw [key]
  simp [hok, liftWait]

/-- Witness for C7: the general start/create/wait composition applied to
the concrete scenario container and engine. -/
theorem container_start_spec_witness :
    (container_start scenarioContainer true scenarioEngine).2.2 =
      Outcome.ok () :=
  (container_start_spec scenarioContainer scenarioEngine { id := "cid" }
    rfl rfl rfl).2.1 rfl

end Docktopus
